import Mathlib

/-!
Verification development for the Meteogrammi application (`src/app_meteo.py`).

The embedding models the two components of the program:

* `get_coordinates_from_city` (lines 24-40): the location resolver.  The
  outcome of the HTTP request plus JSON parsing is an explicit input
  (`Except String GeoData`; the `error` case models any exception raised
  inside the `try` block).  The function returns the 5-tuple of the source,
  modelled as the structure `CityLookup`.

* `fetch_and_process_data` (lines 42-107, the executed copy; everything after
  the first `return df_temp` on line 107 is dead code): the forecast
  normalizer.  The fetch result is an explicit input (`Except String ApiData`).
  The `hourly` JSON object is an association list from parameter name to a
  list of rational values; the entries of the `time` array stand for the
  parsed timestamps, measured in seconds on the local-time axis used by the
  request, so that the calendar date `d : ℤ` starts at instant `86400*d`.
  Python behaviours modelled explicitly:
    - dict access `data['hourly']` / `hourly[k]` raises `KeyError` when the
      key is absent (`Outcome.keyError`);
    - `pd.DataFrame({...})` raises `ValueError` when the column lists have
      unequal lengths (`Outcome.valueError`), and otherwise builds one row
      per index;
    - list slicing `v[:n]` is `List.take`, which never reads out of bounds;
    - `min(list)` on a non-empty list is `minList`;
    - `Series.cumsum` is the accumulator-passing `addAccum`;
    - the date filter keeps timestamps between `start 00:00:00` and
      `end 23:59:59` inclusive, i.e. `[86400*s, 86400*e + 86399]`.
-/

/-- One hourly parameter mapping of the forecast response: association list
from parameter name to value array (`data['hourly']` in the source). -/
abbrev RawHourly := List (String × List ℚ)

/-- Python dict access `hourly[k]`: `none` models a `KeyError`. -/
def lookupKey : RawHourly → String → Option (List ℚ)
  | [], _ => none
  | (k', v) :: rest, k => if k' = k then some v else lookupKey rest k

/-- Line 71: `[len(v) for k, v in hourly.items() if k not in ['time', 'interval']]`. -/
def dataLengths (h : RawHourly) : List ℕ :=
  (h.filter (fun kv => decide (kv.1 ≠ "time" ∧ kv.1 ≠ "interval"))).map
    (fun kv => kv.2.length)

/-- Python `min` over a list, as used on line 77 (guarded non-empty there;
the value on `[]` is irrelevant). -/
def minList : List ℕ → ℕ
  | [] => 0
  | [a] => a
  | a :: b :: r => Nat.min a (minList (b :: r))

/-- `min_length` of line 77. -/
def minLen (h : RawHourly) : ℕ := minList (dataLengths h)

/-- One row of `df_temp` (lines 80-103): the 14 base columns plus the three
derived columns added on lines 100-103. -/
structure HourlyRecord where
  time : ℚ
  temp : ℚ
  dew_point : ℚ
  humidity : ℚ
  clouds_low : ℚ
  clouds_mid : ℚ
  clouds_high : ℚ
  pressure : ℚ
  wind_speed : ℚ
  wind_gusts : ℚ
  wind_dir : ℚ
  rain : ℚ
  snowfall : ℚ
  freezing_lvl : ℚ
  clouds_total : ℚ
  accumulated_rain : ℚ
  accumulated_snow : ℚ
deriving DecidableEq

/-- The row of `pd.DataFrame` at index `i`, built from the 14 (already
truncated) column lists of lines 81-94; derived columns start at 0 and are
assigned later, as in the source. -/
def buildRow (ts temp dew hum cl cm ch pr ws wg wd ra sn fl : List ℚ)
    (i : ℕ) : HourlyRecord :=
  { time := ts.getD i 0, temp := temp.getD i 0, dew_point := dew.getD i 0,
    humidity := hum.getD i 0, clouds_low := cl.getD i 0, clouds_mid := cm.getD i 0,
    clouds_high := ch.getD i 0, pressure := pr.getD i 0, wind_speed := ws.getD i 0,
    wind_gusts := wg.getD i 0, wind_dir := wd.getD i 0, rain := ra.getD i 0,
    snowfall := sn.getD i 0, freezing_lvl := fl.getD i 0,
    clouds_total := 0, accumulated_rain := 0, accumulated_snow := 0 }

/-- `pd.DataFrame({...})` of lines 80-95: raises `ValueError` (modelled as
`none`) unless all column lists have equal length; otherwise one row per
index. -/
def df_temp_assemble (ts temp dew hum cl cm ch pr ws wg wd ra sn fl : List ℚ) :
    Option (List HourlyRecord) :=
  if temp.length = ts.length ∧ dew.length = ts.length ∧ hum.length = ts.length ∧
      cl.length = ts.length ∧ cm.length = ts.length ∧ ch.length = ts.length ∧
      pr.length = ts.length ∧ ws.length = ts.length ∧ wg.length = ts.length ∧
      wd.length = ts.length ∧ ra.length = ts.length ∧ sn.length = ts.length ∧
      fl.length = ts.length then
    some ((List.range ts.length).map (buildRow ts temp dew hum cl cm ch pr ws wg wd ra sn fl))
  else
    none

/-- Line 100: `df_temp['clouds_total'] = low + mid + high` for one row. -/
def setCloudsTotal (r : HourlyRecord) : HourlyRecord :=
  { r with clouds_total := r.clouds_low + r.clouds_mid + r.clouds_high }

/-- Line 100 applied to the whole table. -/
def withCloudsTotal (rows : List HourlyRecord) : List HourlyRecord :=
  rows.map setCloudsTotal

/-- Lines 102-103: `cumsum` of the `rain` and `snowfall` columns, written
with explicit running accumulators (started at 0 by the caller). -/
def addAccum : List HourlyRecord → ℚ → ℚ → List HourlyRecord
  | [], _, _ => []
  | r :: rest, aR, aS =>
    { r with accumulated_rain := aR + r.rain, accumulated_snow := aS + r.snowfall } ::
      addAccum rest (aR + r.rain) (aS + r.snowfall)

/-- Instant of `start_d.strftime("%Y-%m-%d")`, i.e. day `d` at 00:00:00. -/
def dayStart (d : ℤ) : ℚ := 86400 * (d : ℚ)

/-- Instant of `end_d.strftime("%Y-%m-%d") + " 23:59:59"`. -/
def dayEnd (d : ℤ) : ℚ := 86400 * (d : ℚ) + 86399

/-- Line 106: `df_temp[(df_temp['time'] >= start) & (df_temp['time'] <= end 23:59:59)]`. -/
def dateFilter (s e : ℤ) (rows : List HourlyRecord) : List HourlyRecord :=
  rows.filter (fun r => decide (dayStart s ≤ r.time ∧ r.time ≤ dayEnd e))

/-- Result of `fetch_and_process_data`, separating the observably distinct
ways the function can end:
* `fetchFailure`: lines 64-66, `st.error(f"Errore API Meteo: ...")` then `return None`;
* `emptyData`: lines 73-75, `st.error("L'API non ha restituito dati validi...")`
  then `return None`;
* `keyError k`: an uncaught `KeyError` on key `k` escapes the function;
* `valueError`: an uncaught `ValueError` from `pd.DataFrame` escapes;
* `ok rows`: line 107, the returned `DataFrame`. -/
inductive Outcome where
  | fetchFailure : Outcome
  | emptyData : Outcome
  | keyError : String → Outcome
  | valueError : Outcome
  | ok : List HourlyRecord → Outcome
deriving DecidableEq

/-- Lines 68-103: everything `fetch_and_process_data` does between a parsed
response body and the date filter: the length check and truncation (71-77),
the `pd.DataFrame` construction (80-95) and the derived columns (100-103).
The dict-literal entries of lines 81-94 are evaluated in source order, so the
first absent key is the one whose `KeyError` escapes. -/
def preFilterTable (hourly : RawHourly) : Outcome :=
  if dataLengths hourly = [] then Outcome.emptyData else
  match lookupKey hourly "time" with
  | none => Outcome.keyError "time"
  | some ts =>
  match lookupKey hourly "temperature_2m" with
  | none => Outcome.keyError "temperature_2m"
  | some temp =>
  match lookupKey hourly "dew_point_2m" with
  | none => Outcome.keyError "dew_point_2m"
  | some dew =>
  match lookupKey hourly "relative_humidity_2m" with
  | none => Outcome.keyError "relative_humidity_2m"
  | some hum =>
  match lookupKey hourly "cloud_cover_low" with
  | none => Outcome.keyError "cloud_cover_low"
  | some cl =>
  match lookupKey hourly "cloud_cover_mid" with
  | none => Outcome.keyError "cloud_cover_mid"
  | some cm =>
  match lookupKey hourly "cloud_cover_high" with
  | none => Outcome.keyError "cloud_cover_high"
  | some ch =>
  match lookupKey hourly "surface_pressure" with
  | none => Outcome.keyError "surface_pressure"
  | some pr =>
  match lookupKey hourly "wind_speed_10m" with
  | none => Outcome.keyError "wind_speed_10m"
  | some ws =>
  match lookupKey hourly "wind_gusts_10m" with
  | none => Outcome.keyError "wind_gusts_10m"
  | some wg =>
  match lookupKey hourly "wind_direction_10m" with
  | none => Outcome.keyError "wind_direction_10m"
  | some wd =>
  match lookupKey hourly "rain" with
  | none => Outcome.keyError "rain"
  | some ra =>
  match lookupKey hourly "snowfall" with
  | none => Outcome.keyError "snowfall"
  | some sn =>
  match lookupKey hourly "freezing_level_height" with
  | none => Outcome.keyError "freezing_level_height"
  | some fl =>
  match df_temp_assemble (ts.take (minLen hourly)) (temp.take (minLen hourly))
      (dew.take (minLen hourly)) (hum.take (minLen hourly)) (cl.take (minLen hourly))
      (cm.take (minLen hourly)) (ch.take (minLen hourly)) (pr.take (minLen hourly))
      (ws.take (minLen hourly)) (wg.take (minLen hourly)) (wd.take (minLen hourly))
      (ra.take (minLen hourly)) (sn.take (minLen hourly)) (fl.take (minLen hourly)) with
  | none => Outcome.valueError
  | some rows => Outcome.ok (addAccum (withCloudsTotal rows) 0 0)

/-- Lines 68-107: the whole post-fetch processing, ending with the date
filter of line 106 applied to the pre-filter table. -/
def processHourly (hourly : RawHourly) (start_d end_d : ℤ) : Outcome :=
  match preFilterTable hourly with
  | Outcome.ok rows => Outcome.ok (dateFilter start_d end_d rows)
  | o => o

/-- Parsed body of the forecast response; `hourly = none` models a JSON
object without the `'hourly'` key (line 68 then raises `KeyError`). -/
structure ApiData where
  hourly : Option RawHourly

/-- Lines 42-107: `fetch_and_process_data`.  The network interaction of
lines 60-66 is the explicit argument: `Except.error` models a
`requests.exceptions.RequestException` (caught, lines 64-66), `Except.ok`
a parsed JSON body. -/
def fetch_and_process_data (resp : Except String ApiData) (start_d end_d : ℤ) : Outcome :=
  match resp with
  | Except.error _ => Outcome.fetchFailure
  | Except.ok data =>
    match data.hourly with
    | none => Outcome.keyError "hourly"
    | some h => processHourly h start_d end_d

/-- The 13 data-bearing parameter names requested on line 54 and read on
lines 82-94. -/
def paramKeys : List String :=
  ["temperature_2m", "dew_point_2m", "relative_humidity_2m", "cloud_cover_low",
   "cloud_cover_mid", "cloud_cover_high", "surface_pressure", "wind_speed_10m",
   "wind_gusts_10m", "wind_direction_10m", "rain", "snowfall", "freezing_level_height"]

/-- Does the outcome model an uncaught `KeyError`? -/
def isKeyError : Outcome → Bool
  | Outcome.keyError _ => true
  | _ => false

/-- The table carried by a successful outcome. -/
def okRows : Outcome → Option (List HourlyRecord)
  | Outcome.ok rows => some rows
  | _ => none

/-- One geocoding result, with the optional fields of the expected JSON
shape (`country`, `elevation`). -/
structure GeoResult where
  latitude : ℚ
  longitude : ℚ
  name : String
  country : Option String
  elevation : Option ℚ
deriving DecidableEq

/-- Parsed body of the geocoding response; `results = none` models a JSON
object without the `'results'` key (line 31's membership test fails). -/
structure GeoData where
  results : Option (List GeoResult)
deriving DecidableEq

/-- The 5-tuple returned by `get_coordinates_from_city`. -/
structure CityLookup where
  lat : Option ℚ
  lon : Option ℚ
  cname : Option String
  ccountry : Option String
  celevation : ℚ
deriving DecidableEq

/-- The `(None, None, None, None, 0)` tuple returned on lines 37 and 40. -/
def notFoundCity : CityLookup := ⟨none, none, none, none, 0⟩

/-- Lines 24-40: `get_coordinates_from_city`.  `Except.error` models any
exception raised inside the `try` block (network failure, JSON parse
failure); an empty `results` list raises `IndexError` on line 32, which the
bare `except` also turns into the not-found tuple. -/
def get_coordinates_from_city (resp : Except String GeoData) : CityLookup :=
  match resp with
  | Except.error _ => notFoundCity
  | Except.ok data =>
    match data.results with
    | none => notFoundCity
    | some [] => notFoundCity
    | some (r :: _) =>
      ⟨some r.latitude, some r.longitude, some r.name,
        some (r.country.getD ""), r.elevation.getD 0⟩

/-- Spec-side definition, following the words of §4.2 step 4 / §8: the
running ("prefix") sums of a sequence, entry `i` being the sum of the first
`i+1` values.  Used to compare the code's `cumsum` columns against the
specified derivation. -/
def specRunningSums (l : List ℚ) : List ℚ :=
  (List.range l.length).map (fun i => (l.take (i + 1)).sum)

/-- Running sums with a starting offset; bridges `addAccum` and
`specRunningSums`. -/
def cumsumFrom (a : ℚ) : List ℚ → List ℚ
  | [] => []
  | x :: xs => (a + x) :: cumsumFrom (a + x) xs

/-- Concrete record with every column not under test set to 0:
arguments are time, the three cloud layers, rain, snowfall, clouds-total,
accumulated rain, accumulated snow. -/
def mkRec (t cl cm ch ra sn ct ar asn : ℚ) : HourlyRecord :=
  ⟨t, 0, 0, 0, cl, cm, ch, 0, 0, 0, 0, ra, sn, 0, ct, ar, asn⟩

/-- Concrete response whose data-bearing arrays have differing lengths
(`rain` has 2 entries, the other twelve have 3) while the timestamp array
has only 1 entry, fewer than `min_length = 2`. -/
def c1E : RawHourly :=
  [("time", [0]),
   ("temperature_2m", [1, 2, 3]), ("dew_point_2m", [0, 0, 0]),
   ("relative_humidity_2m", [0, 0, 0]), ("cloud_cover_low", [0, 0, 0]),
   ("cloud_cover_mid", [0, 0, 0]), ("cloud_cover_high", [0, 0, 0]),
   ("surface_pressure", [0, 0, 0]), ("wind_speed_10m", [0, 0, 0]),
   ("wind_gusts_10m", [0, 0, 0]), ("wind_direction_10m", [0, 0, 0]),
   ("rain", [1, 2]), ("snowfall", [0, 0, 0]), ("freezing_level_height", [0, 0, 0])]

/-- Concrete response whose data-bearing arrays have differing lengths
(`rain` has 2 entries, the rest 3) and whose timestamp array is long enough. -/
def c1W : RawHourly :=
  [("time", [0, 3600, 7200]),
   ("temperature_2m", [10, 11, 12]), ("dew_point_2m", [1, 2, 3]),
   ("relative_humidity_2m", [50, 60, 70]), ("cloud_cover_low", [5, 6, 7]),
   ("cloud_cover_mid", [8, 9, 10]), ("cloud_cover_high", [11, 12, 13]),
   ("surface_pressure", [1000, 1001, 1002]), ("wind_speed_10m", [1, 1, 1]),
   ("wind_gusts_10m", [2, 2, 2]), ("wind_direction_10m", [90, 180, 270]),
   ("rain", [1, 2]), ("snowfall", [0, 1, 0]), ("freezing_level_height", [100, 200, 300])]

/-- Concrete response with one padded hour before day 0 (time `-3600`
belongs to the previous day): rain `[5, 1]`, snowfall `[2, 3]`. -/
def c2W : RawHourly :=
  [("time", [-3600, 0]), ("temperature_2m", [0, 0]), ("dew_point_2m", [0, 0]),
   ("relative_humidity_2m", [0, 0]), ("cloud_cover_low", [0, 0]), ("cloud_cover_mid", [0, 0]),
   ("cloud_cover_high", [0, 0]), ("surface_pressure", [0, 0]), ("wind_speed_10m", [0, 0]),
   ("wind_gusts_10m", [0, 0]), ("wind_direction_10m", [0, 0]), ("rain", [5, 1]),
   ("snowfall", [2, 3]), ("freezing_level_height", [0, 0])]

/-- Concrete one-hour response with cloud layers 10/20/30. -/
def c3W : RawHourly :=
  [("time", [0]), ("temperature_2m", [0]), ("dew_point_2m", [0]),
   ("relative_humidity_2m", [0]), ("cloud_cover_low", [10]), ("cloud_cover_mid", [20]),
   ("cloud_cover_high", [30]), ("surface_pressure", [0]), ("wind_speed_10m", [0]),
   ("wind_gusts_10m", [0]), ("wind_direction_10m", [0]), ("rain", [0]),
   ("snowfall", [0]), ("freezing_level_height", [0])]

/-- Concrete response in which every array is present but empty. -/
def c4E : RawHourly :=
  [("time", []), ("temperature_2m", []), ("dew_point_2m", []),
   ("relative_humidity_2m", []), ("cloud_cover_low", []), ("cloud_cover_mid", []),
   ("cloud_cover_high", []), ("surface_pressure", []), ("wind_speed_10m", []),
   ("wind_gusts_10m", []), ("wind_direction_10m", []), ("rain", []),
   ("snowfall", []), ("freezing_level_height", [])]

/-- Concrete response containing no data-bearing key at all. -/
def c4W : RawHourly := [("time", [0])]

/-- Concrete two-hour response with a negative hourly rain value. -/
def c6E : RawHourly :=
  [("time", [0, 3600]), ("temperature_2m", [0, 0]), ("dew_point_2m", [0, 0]),
   ("relative_humidity_2m", [0, 0]), ("cloud_cover_low", [0, 0]), ("cloud_cover_mid", [0, 0]),
   ("cloud_cover_high", [0, 0]), ("surface_pressure", [0, 0]), ("wind_speed_10m", [0, 0]),
   ("wind_gusts_10m", [0, 0]), ("wind_direction_10m", [0, 0]), ("rain", [1, -1]),
   ("snowfall", [0, 0]), ("freezing_level_height", [0, 0])]

/-- Concrete two-hour response with nonnegative rain `[1, 2]` and
snowfall `[0, 1]`. -/
def c6W : RawHourly :=
  [("time", [0, 3600]), ("temperature_2m", [0, 0]), ("dew_point_2m", [0, 0]),
   ("relative_humidity_2m", [0, 0]), ("cloud_cover_low", [0, 0]), ("cloud_cover_mid", [0, 0]),
   ("cloud_cover_high", [0, 0]), ("surface_pressure", [0, 0]), ("wind_speed_10m", [0, 0]),
   ("wind_gusts_10m", [0, 0]), ("wind_direction_10m", [0, 0]), ("rain", [1, 2]),
   ("snowfall", [0, 1]), ("freezing_level_height", [0, 0])]

/-- Concrete response with `time` and `temperature_2m` present but the other
twelve named parameter arrays absent. -/
def c9W : RawHourly := [("time", [0]), ("temperature_2m", [0])]

/-- Concrete response whose timestamp array (1 entry) is strictly shorter
than every data-bearing array (2 entries each); the metadata key `interval`
is present with yet another length and must not enter the minimum. -/
def c10W : RawHourly :=
  [("time", [0]), ("interval", [0, 0, 0, 0]),
   ("temperature_2m", [1, 2]), ("dew_point_2m", [0, 0]),
   ("relative_humidity_2m", [0, 0]), ("cloud_cover_low", [0, 0]),
   ("cloud_cover_mid", [0, 0]), ("cloud_cover_high", [0, 0]),
   ("surface_pressure", [0, 0]), ("wind_speed_10m", [0, 0]),
   ("wind_gusts_10m", [0, 0]), ("wind_direction_10m", [0, 0]),
   ("rain", [0, 0]), ("snowfall", [0, 0]), ("freezing_level_height", [0, 0])]

/-- `minList` is a lower bound of its argument. -/
theorem minList_le (l : List ℕ) : ∀ x ∈ l, minList l ≤ x := by
  induction l with
  | nil => intro x hx; cases hx
  | cons a r ih =>
    intro x hx
    rw [List.mem_cons] at hx
    cases r with
    | nil =>
      rcases hx with rfl | hx
      · simp [minList]
      · cases hx
    | cons b r2 =>
      rcases hx with rfl | hx
      · exact Nat.min_le_left _ _
      · exact le_trans (Nat.min_le_right _ _) (ih x hx)

/-- A successfully looked-up data-bearing array contributes its length to
`dataLengths`. -/
theorem length_mem_dataLengths (h : RawHourly) (k : String) (v : List ℚ)
    (hk : lookupKey h k = some v) (h1 : k ≠ "time") (h2 : k ≠ "interval") :
    v.length ∈ dataLengths h := by
  induction h with
  | nil => simp [lookupKey] at hk
  | cons kv rest ih =>
    obtain ⟨k', v'⟩ := kv
    rw [lookupKey] at hk
    by_cases hkk : k' = k
    · rw [if_pos hkk] at hk
      obtain rfl : v' = v := Option.some.inj hk
      subst hkk
      simp only [dataLengths, List.filter_cons]
      rw [if_pos (by simpa using And.intro h1 h2)]
      exact List.mem_cons_self _ _
    · rw [if_neg hkk] at hk
      have hmem := ih hk
      simp only [dataLengths, List.filter_cons]
      by_cases hp : (k' ≠ "time" ∧ k' ≠ "interval")
      · rw [if_pos (by simpa using hp)]
        exact List.mem_cons_of_mem _ hmem
      · rw [if_neg (by simpa using hp)]
        exact hmem

/-- `addAccum` preserves the number of rows. -/
theorem addAccum_length (l : List HourlyRecord) (a b : ℚ) :
    (addAccum l a b).length = l.length := by
  induction l generalizing a b with
  | nil => rfl
  | cons r rest ih => simp [addAccum, ih]

/-- `addAccum` only rewrites the two accumulator columns: any projection
insensitive to them maps through unchanged. -/
theorem map_addAccum (f : HourlyRecord → ℚ)
    (hf : ∀ (r : HourlyRecord) (x y : ℚ),
      f { r with accumulated_rain := x, accumulated_snow := y } = f r) :
    ∀ (l : List HourlyRecord) (a b : ℚ), (addAccum l a b).map f = l.map f := by
  intro l
  induction l with
  | nil => intro a b; rfl
  | cons r rest ih => intro a b; simp [addAccum, hf, ih]

/-- `withCloudsTotal` only rewrites the `clouds_total` column: any projection
insensitive to it maps through unchanged. -/
theorem map_withCloudsTotal (f : HourlyRecord → ℚ)
    (hf : ∀ r : HourlyRecord, f (setCloudsTotal r) = f r)
    (l : List HourlyRecord) : (withCloudsTotal l).map f = l.map f := by
  simp only [withCloudsTotal, List.map_map]
  exact List.map_congr_left (fun r _ => hf r)

/-- Reading a list back out of its `getD` entries. -/
theorem map_range_getD (l : List ℚ) :
    (List.range l.length).map (fun i => l.getD i 0) = l := by
  induction l with
  | nil => rfl
  | cons x xs ih =>
    rw [List.length_cons, List.range_succ_eq_map, List.map_cons, List.map_map]
    simp only [List.getD_cons_zero, Function.comp_def, List.getD_cons_succ]
    rw [ih]

/-- `map_range_getD` with the length given by an equation. -/
theorem map_range_getD_of_len (l : List ℚ) (n : ℕ) (h : l.length = n) :
    (List.range n).map (fun i => l.getD i 0) = l := by
  subst h; exact map_range_getD l

/-- The rain accumulator column is the offset running sum of the rain column. -/
theorem addAccum_rain_eq (l : List HourlyRecord) (a b : ℚ) :
    (addAccum l a b).map (fun r => r.accumulated_rain) =
      cumsumFrom a (l.map (fun r => r.rain)) := by
  induction l generalizing a b with
  | nil => rfl
  | cons r rest ih => simp [addAccum, cumsumFrom, ih]

/-- The snow accumulator column is the offset running sum of the snowfall column. -/
theorem addAccum_snow_eq (l : List HourlyRecord) (a b : ℚ) :
    (addAccum l a b).map (fun r => r.accumulated_snow) =
      cumsumFrom b (l.map (fun r => r.snowfall)) := by
  induction l generalizing a b with
  | nil => rfl
  | cons r rest ih => simp [addAccum, cumsumFrom, ih]

/-- Closed form of the offset running sums. -/
theorem cumsumFrom_eq (l : List ℚ) :
    ∀ a : ℚ, cumsumFrom a l = (List.range l.length).map (fun i => a + (l.take (i + 1)).sum) := by
  induction l with
  | nil => intro a; rfl
  | cons x xs ih =>
    intro a
    rw [List.length_cons, List.range_succ_eq_map, List.map_cons, List.map_map]
    simp only [List.take_succ_cons, List.sum_cons, List.take_zero, List.sum_nil, add_zero]
    rw [cumsumFrom, ih (a + x)]
    congr 1
    apply List.map_congr_left
    intro i _
    simp [Function.comp_def, add_assoc]

/-- `cumsumFrom 0` is exactly the specified running-sum derivation. -/
theorem cumsumFrom_zero_eq_spec (l : List ℚ) :
    cumsumFrom 0 l = specRunningSums l := by
  rw [cumsumFrom_eq, specRunningSums]
  apply List.map_congr_left
  intro i _
  rw [zero_add]

/-- A successful pre-filter table is the accumulator pass over the
clouds-total pass over some assembled base table. -/
theorem preFilterTable_ok_shape (h : RawHourly) (pre : List HourlyRecord)
    (hpre : preFilterTable h = Outcome.ok pre) :
    ∃ base : List HourlyRecord, pre = addAccum (withCloudsTotal base) 0 0 := by
  unfold preFilterTable at hpre
  repeat' split at hpre
  all_goals first
    | exact Outcome.noConfusion hpre
    | exact ⟨_, (Outcome.ok.inj hpre).symm⟩

/-- The date filter step preserves a `KeyError` outcome. -/
theorem isKeyError_processHourly (h : RawHourly) (s e : ℤ)
    (hk : isKeyError (preFilterTable h) = true) :
    isKeyError (processHourly h s e) = true := by
  unfold processHourly
  cases hp : preFilterTable h <;> simp_all [isKeyError]

/-- If the pre-filter table succeeds, processing succeeds with the filtered
table. -/
theorem processHourly_ok (h : RawHourly) (s e : ℤ) (pre : List HourlyRecord)
    (hpre : preFilterTable h = Outcome.ok pre) :
    processHourly h s e = Outcome.ok (dateFilter s e pre) := by
  unfold processHourly
  rw [hpre]

/-- Conversely, a successful processing outcome comes from a successful
pre-filter table, filtered. -/
theorem processHourly_ok_inv (h : RawHourly) (s e : ℤ) (rows : List HourlyRecord)
    (hok : processHourly h s e = Outcome.ok rows) :
    ∃ pre : List HourlyRecord,
      preFilterTable h = Outcome.ok pre ∧ rows = dateFilter s e pre := by
  unfold processHourly at hok
  cases hp : preFilterTable h <;> rw [hp] at hok <;>
    first
      | exact Outcome.noConfusion hok
      | exact ⟨_, rfl, (Outcome.ok.inj hok).symm⟩

/-- Running rain sums over nonnegative hourly rain are non-decreasing and
bounded below by the starting accumulator. -/
theorem addAccum_rain_pairwise (l : List HourlyRecord) :
    ∀ a b : ℚ, (∀ r ∈ l, 0 ≤ r.rain) →
      ((addAccum l a b).map (fun r => r.accumulated_rain)).Pairwise (· ≤ ·) ∧
      (∀ x ∈ (addAccum l a b).map (fun r => r.accumulated_rain), a ≤ x) := by
  induction l with
  | nil => intro a b _; exact ⟨List.Pairwise.nil, by intro x hx; cases hx⟩
  | cons r rest ih =>
    intro a b hpos
    have hr : 0 ≤ r.rain := hpos r (List.mem_cons_self _ _)
    have hrest : ∀ q ∈ rest, 0 ≤ q.rain := fun q hq => hpos q (List.mem_cons_of_mem _ hq)
    obtain ⟨ihp, ihb⟩ := ih (a + r.rain) (b + r.snowfall) hrest
    constructor
    · rw [addAccum, List.map_cons]
      exact List.Pairwise.cons (fun x hx => ihb x hx) ihp
    · intro x hx
      rw [addAccum, List.map_cons, List.mem_cons] at hx
      rcases hx with rfl | hx
      · simpa using hr
      · exact le_trans (by simpa using hr) (ihb x hx)

/-- Running snow sums over nonnegative hourly snowfall are non-decreasing and
bounded below by the starting accumulator. -/
theorem addAccum_snow_pairwise (l : List HourlyRecord) :
    ∀ a b : ℚ, (∀ r ∈ l, 0 ≤ r.snowfall) →
      ((addAccum l a b).map (fun r => r.accumulated_snow)).Pairwise (· ≤ ·) ∧
      (∀ x ∈ (addAccum l a b).map (fun r => r.accumulated_snow), b ≤ x) := by
  induction l with
  | nil => intro a b _; exact ⟨List.Pairwise.nil, by intro x hx; cases hx⟩
  | cons r rest ih =>
    intro a b hpos
    have hr : 0 ≤ r.snowfall := hpos r (List.mem_cons_self _ _)
    have hrest : ∀ q ∈ rest, 0 ≤ q.snowfall := fun q hq => hpos q (List.mem_cons_of_mem _ hq)
    obtain ⟨ihp, ihb⟩ := ih (a + r.rain) (b + r.snowfall) hrest
    constructor
    · rw [addAccum, List.map_cons]
      exact List.Pairwise.cons (fun x hx => ihb x hx) ihp
    · intro x hx
      rw [addAccum, List.map_cons, List.mem_cons] at hx
      rcases hx with rfl | hx
      · simpa using hr
      · exact le_trans (by simpa using hr) (ihb x hx)

/-- Every record of an accumulator pass over a clouds-total pass satisfies
the additive cloud-cover derivation. -/
theorem cloudsTotal_of_shape (base : List HourlyRecord) :
    ∀ r ∈ addAccum (withCloudsTotal base) 0 0,
      r.clouds_total = r.clouds_low + r.clouds_mid + r.clouds_high := by
  suffices hgen : ∀ (l : List HourlyRecord) (a b : ℚ),
      (∀ r ∈ l, r.clouds_total = r.clouds_low + r.clouds_mid + r.clouds_high) →
      ∀ r ∈ addAccum l a b, r.clouds_total = r.clouds_low + r.clouds_mid + r.clouds_high by
    apply hgen
    intro r hr
    rw [withCloudsTotal, List.mem_map] at hr
    obtain ⟨r0, _, rfl⟩ := hr
    rfl
  intro l
  induction l with
  | nil => intro a b _ r hr; cases hr
  | cons q rest ih =>
    intro a b hl r hr
    rw [addAccum, List.mem_cons] at hr
    rcases hr with rfl | hr
    · exact hl q (List.mem_cons_self _ _)
    · exact ih _ _ (fun p hp => hl p (List.mem_cons_of_mem _ hp)) r hr

/-- When all 14 arrays are present and the timestamp array reaches
`min_length`, the pre-filter table is built successfully and has the explicit
truncate-assemble-derive form. -/
theorem preFilterTable_eq_ok (h : RawHourly)
    (ts temp dew hum cl cm ch pr ws wg wd ra sn fl : List ℚ)
    (h_ts : lookupKey h "time" = some ts)
    (h_temp : lookupKey h "temperature_2m" = some temp)
    (h_dew : lookupKey h "dew_point_2m" = some dew)
    (h_hum : lookupKey h "relative_humidity_2m" = some hum)
    (h_cl : lookupKey h "cloud_cover_low" = some cl)
    (h_cm : lookupKey h "cloud_cover_mid" = some cm)
    (h_ch : lookupKey h "cloud_cover_high" = some ch)
    (h_pr : lookupKey h "surface_pressure" = some pr)
    (h_ws : lookupKey h "wind_speed_10m" = some ws)
    (h_wg : lookupKey h "wind_gusts_10m" = some wg)
    (h_wd : lookupKey h "wind_direction_10m" = some wd)
    (h_ra : lookupKey h "rain" = some ra)
    (h_sn : lookupKey h "snowfall" = some sn)
    (h_fl : lookupKey h "freezing_level_height" = some fl)
    (hlen : minLen h ≤ ts.length) :
    preFilterTable h = Outcome.ok (addAccum (withCloudsTotal
      ((List.range (ts.take (minLen h)).length).map
        (buildRow (ts.take (minLen h)) (temp.take (minLen h)) (dew.take (minLen h))
          (hum.take (minLen h)) (cl.take (minLen h)) (cm.take (minLen h))
          (ch.take (minLen h)) (pr.take (minLen h)) (ws.take (minLen h))
          (wg.take (minLen h)) (wd.take (minLen h)) (ra.take (minLen h))
          (sn.take (minLen h)) (fl.take (minLen h))))) 0 0) := by
  have hb : ∀ (k : String) (v : List ℚ), lookupKey h k = some v →
      k ≠ "time" → k ≠ "interval" → (v.take (minLen h)).length = minLen h := by
    intro k v hk h1 h2
    rw [List.length_take]
    exact Nat.min_eq_left (minList_le _ _ (length_mem_dataLengths h k v hk h1 h2))
  have hne : dataLengths h ≠ [] :=
    List.ne_nil_of_mem (length_mem_dataLengths h _ _ h_temp (by decide) (by decide))
  have lts : (ts.take (minLen h)).length = minLen h := by
    rw [List.length_take]; exact Nat.min_eq_left hlen
  have ltemp := hb _ _ h_temp (by decide) (by decide)
  have ldew := hb _ _ h_dew (by decide) (by decide)
  have lhum := hb _ _ h_hum (by decide) (by decide)
  have lcl := hb _ _ h_cl (by decide) (by decide)
  have lcm := hb _ _ h_cm (by decide) (by decide)
  have lch := hb _ _ h_ch (by decide) (by decide)
  have lpr := hb _ _ h_pr (by decide) (by decide)
  have lws := hb _ _ h_ws (by decide) (by decide)
  have lwg := hb _ _ h_wg (by decide) (by decide)
  have lwd := hb _ _ h_wd (by decide) (by decide)
  have lra := hb _ _ h_ra (by decide) (by decide)
  have lsn := hb _ _ h_sn (by decide) (by decide)
  have lfl := hb _ _ h_fl (by decide) (by decide)
  unfold preFilterTable
  rw [if_neg hne]
  simp only [h_ts, h_temp, h_dew, h_hum, h_cl, h_cm, h_ch, h_pr, h_ws, h_wg, h_wd,
    h_ra, h_sn, h_fl]
  unfold df_temp_assemble
  rw [if_pos ⟨ltemp.trans lts.symm, ldew.trans lts.symm, lhum.trans lts.symm,
    lcl.trans lts.symm, lcm.trans lts.symm, lch.trans lts.symm, lpr.trans lts.symm,
    lws.trans lts.symm, lwg.trans lts.symm, lwd.trans lts.symm, lra.trans lts.symm,
    lsn.trans lts.symm, lfl.trans lts.symm⟩]

/-- Reading one base column back out of the finished pre-filter table. -/
theorem assembled_column (ts temp dew hum cl cm ch pr ws wg wd ra sn fl : List ℚ)
    (f : HourlyRecord → ℚ) (col : List ℚ)
    (hcomp : ∀ i : ℕ,
      f (buildRow ts temp dew hum cl cm ch pr ws wg wd ra sn fl i) = col.getD i 0)
    (hfa : ∀ (r : HourlyRecord) (x y : ℚ),
      f { r with accumulated_rain := x, accumulated_snow := y } = f r)
    (hfc : ∀ r : HourlyRecord, f (setCloudsTotal r) = f r)
    (hlen : col.length = ts.length) :
    (addAccum (withCloudsTotal ((List.range ts.length).map
      (buildRow ts temp dew hum cl cm ch pr ws wg wd ra sn fl))) 0 0).map f = col := by
  rw [map_addAccum f hfa, map_withCloudsTotal f hfc, List.map_map]
  rw [show (f ∘ buildRow ts temp dew hum cl cm ch pr ws wg wd ra sn fl) =
    (fun i => col.getD i 0) from funext (fun i => hcomp i)]
  exact map_range_getD_of_len col ts.length hlen

/-- `withCloudsTotal` preserves the number of rows. -/
theorem withCloudsTotal_length (l : List HourlyRecord) :
    (withCloudsTotal l).length = l.length := by
  simp [withCloudsTotal]

/-- C1 (amended): for every raw response in which all fourteen named arrays
are present and the timestamp array has at least `min_length` entries, where
`min_length` is the minimum length over the data-bearing arrays (every key
except `time` and `interval`), the Normalizer builds the pre-filter table
successfully with exactly `min_length` rows, each base column being exactly
the first `min_length` entries of its source array, the timestamp column
included; no array is read past `min_length`.  (The unamended claim fails
when the timestamp array is shorter than `min_length`: see the
counterexample, where no table is built at all.) -/
theorem c1_truncation_amended (h : RawHourly)
    (ts temp dew hum cl cm ch pr ws wg wd ra sn fl : List ℚ)
    (h_ts : lookupKey h "time" = some ts)
    (h_temp : lookupKey h "temperature_2m" = some temp)
    (h_dew : lookupKey h "dew_point_2m" = some dew)
    (h_hum : lookupKey h "relative_humidity_2m" = some hum)
    (h_cl : lookupKey h "cloud_cover_low" = some cl)
    (h_cm : lookupKey h "cloud_cover_mid" = some cm)
    (h_ch : lookupKey h "cloud_cover_high" = some ch)
    (h_pr : lookupKey h "surface_pressure" = some pr)
    (h_ws : lookupKey h "wind_speed_10m" = some ws)
    (h_wg : lookupKey h "wind_gusts_10m" = some wg)
    (h_wd : lookupKey h "wind_direction_10m" = some wd)
    (h_ra : lookupKey h "rain" = some ra)
    (h_sn : lookupKey h "snowfall" = some sn)
    (h_fl : lookupKey h "freezing_level_height" = some fl)
    (hlen : minLen h ≤ ts.length) :
    (okRows (preFilterTable h)).map List.length = some (minLen h) ∧
    (okRows (preFilterTable h)).map (List.map (fun r => r.time)) = some (ts.take (minLen h)) ∧
    (okRows (preFilterTable h)).map (List.map (fun r => r.temp)) = some (temp.take (minLen h)) ∧
    (okRows (preFilterTable h)).map (List.map (fun r => r.dew_point)) = some (dew.take (minLen h)) ∧
    (okRows (preFilterTable h)).map (List.map (fun r => r.humidity)) = some (hum.take (minLen h)) ∧
    (okRows (preFilterTable h)).map (List.map (fun r => r.clouds_low)) = some (cl.take (minLen h)) ∧
    (okRows (preFilterTable h)).map (List.map (fun r => r.clouds_mid)) = some (cm.take (minLen h)) ∧
    (okRows (preFilterTable h)).map (List.map (fun r => r.clouds_high)) = some (ch.take (minLen h)) ∧
    (okRows (preFilterTable h)).map (List.map (fun r => r.pressure)) = some (pr.take (minLen h)) ∧
    (okRows (preFilterTable h)).map (List.map (fun r => r.wind_speed)) = some (ws.take (minLen h)) ∧
    (okRows (preFilterTable h)).map (List.map (fun r => r.wind_gusts)) = some (wg.take (minLen h)) ∧
    (okRows (preFilterTable h)).map (List.map (fun r => r.wind_dir)) = some (wd.take (minLen h)) ∧
    (okRows (preFilterTable h)).map (List.map (fun r => r.rain)) = some (ra.take (minLen h)) ∧
    (okRows (preFilterTable h)).map (List.map (fun r => r.snowfall)) = some (sn.take (minLen h)) ∧
    (okRows (preFilterTable h)).map (List.map (fun r => r.freezing_lvl)) = some (fl.take (minLen h)) := by
  have hb : ∀ (k : String) (v : List ℚ), lookupKey h k = some v →
      k ≠ "time" → k ≠ "interval" → (v.take (minLen h)).length = minLen h := by
    intro k v hk h1 h2
    rw [List.length_take]
    exact Nat.min_eq_left (minList_le _ _ (length_mem_dataLengths h k v hk h1 h2))
  have lts : (ts.take (minLen h)).length = minLen h := by
    rw [List.length_take]; exact Nat.min_eq_left hlen
  have hcore := preFilterTable_eq_ok h ts temp dew hum cl cm ch pr ws wg wd ra sn fl
    h_ts h_temp h_dew h_hum h_cl h_cm h_ch h_pr h_ws h_wg h_wd h_ra h_sn h_fl hlen
  rw [hcore]
  simp only [okRows, Option.map_some']
  refine ⟨?_, ?_, ?_, ?_, ?_, ?_, ?_, ?_, ?_, ?_, ?_, ?_, ?_, ?_, ?_⟩
  · rw [addAccum_length, withCloudsTotal_length, List.length_map, List.length_range, lts]
  · exact congrArg some (assembled_column _ _ _ _ _ _ _ _ _ _ _ _ _ _
      (fun r => r.time) (ts.take (minLen h)) (fun i => rfl) (fun _ _ _ => rfl) (fun _ => rfl) rfl)
  · exact congrArg some (assembled_column _ _ _ _ _ _ _ _ _ _ _ _ _ _
      (fun r => r.temp) (temp.take (minLen h)) (fun i => rfl) (fun _ _ _ => rfl) (fun _ => rfl)
      ((hb _ _ h_temp (by decide) (by decide)).trans lts.symm))
  · exact congrArg some (assembled_column _ _ _ _ _ _ _ _ _ _ _ _ _ _
      (fun r => r.dew_point) (dew.take (minLen h)) (fun i => rfl) (fun _ _ _ => rfl) (fun _ => rfl)
      ((hb _ _ h_dew (by decide) (by decide)).trans lts.symm))
  · exact congrArg some (assembled_column _ _ _ _ _ _ _ _ _ _ _ _ _ _
      (fun r => r.humidity) (hum.take (minLen h)) (fun i => rfl) (fun _ _ _ => rfl) (fun _ => rfl)
      ((hb _ _ h_hum (by decide) (by decide)).trans lts.symm))
  · exact congrArg some (assembled_column _ _ _ _ _ _ _ _ _ _ _ _ _ _
      (fun r => r.clouds_low) (cl.take (minLen h)) (fun i => rfl) (fun _ _ _ => rfl) (fun _ => rfl)
      ((hb _ _ h_cl (by decide) (by decide)).trans lts.symm))
  · exact congrArg some (assembled_column _ _ _ _ _ _ _ _ _ _ _ _ _ _
      (fun r => r.clouds_mid) (cm.take (minLen h)) (fun i => rfl) (fun _ _ _ => rfl) (fun _ => rfl)
      ((hb _ _ h_cm (by decide) (by decide)).trans lts.symm))
  · exact congrArg some (assembled_column _ _ _ _ _ _ _ _ _ _ _ _ _ _
      (fun r => r.clouds_high) (ch.take (minLen h)) (fun i => rfl) (fun _ _ _ => rfl) (fun _ => rfl)
      ((hb _ _ h_ch (by decide) (by decide)).trans lts.symm))
  · exact congrArg some (assembled_column _ _ _ _ _ _ _ _ _ _ _ _ _ _
      (fun r => r.pressure) (pr.take (minLen h)) (fun i => rfl) (fun _ _ _ => rfl) (fun _ => rfl)
      ((hb _ _ h_pr (by decide) (by decide)).trans lts.symm))
  · exact congrArg some (assembled_column _ _ _ _ _ _ _ _ _ _ _ _ _ _
      (fun r => r.wind_speed) (ws.take (minLen h)) (fun i => rfl) (fun _ _ _ => rfl) (fun _ => rfl)
      ((hb _ _ h_ws (by decide) (by decide)).trans lts.symm))
  · exact congrArg some (assembled_column _ _ _ _ _ _ _ _ _ _ _ _ _ _
      (fun r => r.wind_gusts) (wg.take (minLen h)) (fun i => rfl) (fun _ _ _ => rfl) (fun _ => rfl)
      ((hb _ _ h_wg (by decide) (by decide)).trans lts.symm))
  · exact congrArg some (assembled_column _ _ _ _ _ _ _ _ _ _ _ _ _ _
      (fun r => r.wind_dir) (wd.take (minLen h)) (fun i => rfl) (fun _ _ _ => rfl) (fun _ => rfl)
      ((hb _ _ h_wd (by decide) (by decide)).trans lts.symm))
  · exact congrArg some (assembled_column _ _ _ _ _ _ _ _ _ _ _ _ _ _
      (fun r => r.rain) (ra.take (minLen h)) (fun i => rfl) (fun _ _ _ => rfl) (fun _ => rfl)
      ((hb _ _ h_ra (by decide) (by decide)).trans lts.symm))
  · exact congrArg some (assembled_column _ _ _ _ _ _ _ _ _ _ _ _ _ _
      (fun r => r.snowfall) (sn.take (minLen h)) (fun i => rfl) (fun _ _ _ => rfl) (fun _ => rfl)
      ((hb _ _ h_sn (by decide) (by decide)).trans lts.symm))
  · exact congrArg some (assembled_column _ _ _ _ _ _ _ _ _ _ _ _ _ _
      (fun r => r.freezing_lvl) (fl.take (minLen h)) (fun i => rfl) (fun _ _ _ => rfl) (fun _ => rfl)
      ((hb _ _ h_fl (by decide) (by decide)).trans lts.symm))

/-- C1 counterexample: a raw response whose data-bearing arrays have
differing lengths (twelve arrays of length 3, `rain` of length 2, so
`min_length = 2`) but whose timestamp array has a single entry.  The claim
says the pre-filter table is built with exactly `min_length` rows from the
first `min_length` entries of every sequence including the timestamp
sequence; instead no table is built at all: `pd.DataFrame` raises
`ValueError` because the truncated timestamp column is shorter than the
data columns. -/
theorem c1_cex_time_shorter :
    dataLengths c1E = [3, 3, 3, 3, 3, 3, 3, 3, 3, 3, 2, 3, 3] ∧
    minLen c1E = 2 ∧
    preFilterTable c1E = Outcome.valueError ∧
    okRows (preFilterTable c1E) = none := by decide

/-- C1 witness: the amended theorem applied to a concrete response with
differing data-array lengths (`rain` of length 2, the rest of length 3) and
a timestamp array of length 3 ≥ `min_length = 2`. -/
theorem c1_truncation_witness :
    minLen c1W ≤ 3 ∧
    ((okRows (preFilterTable c1W)).map List.length = some (minLen c1W) ∧
     (okRows (preFilterTable c1W)).map (List.map (fun r => r.time)) =
       some (([0, 3600, 7200] : List ℚ).take (minLen c1W)) ∧
     (okRows (preFilterTable c1W)).map (List.map (fun r => r.temp)) =
       some (([10, 11, 12] : List ℚ).take (minLen c1W)) ∧
     (okRows (preFilterTable c1W)).map (List.map (fun r => r.dew_point)) =
       some (([1, 2, 3] : List ℚ).take (minLen c1W)) ∧
     (okRows (preFilterTable c1W)).map (List.map (fun r => r.humidity)) =
       some (([50, 60, 70] : List ℚ).take (minLen c1W)) ∧
     (okRows (preFilterTable c1W)).map (List.map (fun r => r.clouds_low)) =
       some (([5, 6, 7] : List ℚ).take (minLen c1W)) ∧
     (okRows (preFilterTable c1W)).map (List.map (fun r => r.clouds_mid)) =
       some (([8, 9, 10] : List ℚ).take (minLen c1W)) ∧
     (okRows (preFilterTable c1W)).map (List.map (fun r => r.clouds_high)) =
       some (([11, 12, 13] : List ℚ).take (minLen c1W)) ∧
     (okRows (preFilterTable c1W)).map (List.map (fun r => r.pressure)) =
       some (([1000, 1001, 1002] : List ℚ).take (minLen c1W)) ∧
     (okRows (preFilterTable c1W)).map (List.map (fun r => r.wind_speed)) =
       some (([1, 1, 1] : List ℚ).take (minLen c1W)) ∧
     (okRows (preFilterTable c1W)).map (List.map (fun r => r.wind_gusts)) =
       some (([2, 2, 2] : List ℚ).take (minLen c1W)) ∧
     (okRows (preFilterTable c1W)).map (List.map (fun r => r.wind_dir)) =
       some (([90, 180, 270] : List ℚ).take (minLen c1W)) ∧
     (okRows (preFilterTable c1W)).map (List.map (fun r => r.rain)) =
       some (([1, 2] : List ℚ).take (minLen c1W)) ∧
     (okRows (preFilterTable c1W)).map (List.map (fun r => r.snowfall)) =
       some (([0, 1, 0] : List ℚ).take (minLen c1W)) ∧
     (okRows (preFilterTable c1W)).map (List.map (fun r => r.freezing_lvl)) =
       some (([100, 200, 300] : List ℚ).take (minLen c1W))) :=
  ⟨by decide, c1_truncation_amended c1W _ _ _ _ _ _ _ _ _ _ _ _ _ _
    rfl rfl rfl rfl rfl rfl rfl rfl rfl rfl rfl rfl rfl rfl (by decide)⟩

/-- C10: the minimum-length computation of line 71 excludes the `time` and
`interval` keys, so on a response whose timestamp array (1 entry) is
strictly shorter than every data-bearing array (2 entries), the data arrays
are not truncated to the timestamp length; `pd.DataFrame` is then called
with a timestamp column of length 1 against data columns of length 2 and
raises an uncaught `ValueError` instead of producing a table of
`len(time)` rows. -/
theorem c10_short_time_value_error :
    dataLengths c10W = [2, 2, 2, 2, 2, 2, 2, 2, 2, 2, 2, 2, 2] ∧
    (lookupKey c10W "time").map List.length = some 1 ∧
    (lookupKey c10W "interval").map List.length = some 4 ∧
    minLen c10W = 2 ∧
    preFilterTable c10W = Outcome.valueError ∧
    processHourly c10W 0 0 = Outcome.valueError ∧
    okRows (processHourly c10W 0 0) = none := by decide

/-- C4 (amended): when the response has no data-bearing key at all, the
Normalizer stops with the distinct empty-data error of lines 73-75 (not the
fetch failure of lines 64-66, which is a different user-visible message) and
never returns a table.  The unamended claim also covered arrays that are
present but empty; the counterexample shows those instead produce an
empty-but-successful table. -/
theorem c4_empty_keys_amended (h : RawHourly) (s e : ℤ)
    (hne : dataLengths h = []) :
    fetch_and_process_data (Except.ok ⟨some h⟩) s e = Outcome.emptyData ∧
    (∀ msg : String, fetch_and_process_data (Except.error msg) s e = Outcome.fetchFailure) ∧
    Outcome.emptyData ≠ Outcome.fetchFailure ∧
    (∀ rows : List HourlyRecord, Outcome.emptyData ≠ Outcome.ok rows) := by
  have hp : preFilterTable h = Outcome.emptyData := by
    unfold preFilterTable; rw [if_pos hne]
  refine ⟨?_, fun _ => rfl, fun hc => Outcome.noConfusion hc,
    fun rows hc => Outcome.noConfusion hc⟩
  show processHourly h s e = Outcome.emptyData
  rw [processHourly, hp]

/-- C4 counterexample: a response in which every array, the thirteen
data-bearing ones included, is present but empty.  The claim says such an
input yields the empty-data failure and never an empty-but-successful
table; the code takes `array_lengths = [0, ..., 0]`, which is not the empty
list, computes `min_length = 0` and returns an empty table through the
success path. -/
theorem c4_cex_all_empty_arrays :
    dataLengths c4E = [0, 0, 0, 0, 0, 0, 0, 0, 0, 0, 0, 0, 0] ∧
    preFilterTable c4E = Outcome.ok [] ∧
    processHourly c4E 0 0 = Outcome.ok [] ∧
    processHourly c4E 0 0 ≠ Outcome.emptyData := by decide

/-- C4 witness: the amended theorem applied to a response carrying only a
`time` array and no data-bearing key. -/
theorem c4_empty_keys_witness :
    dataLengths c4W = [] ∧
    (fetch_and_process_data (Except.ok ⟨some c4W⟩) 0 0 = Outcome.emptyData ∧
     (∀ msg : String, fetch_and_process_data (Except.error msg) 0 0 = Outcome.fetchFailure) ∧
     Outcome.emptyData ≠ Outcome.fetchFailure ∧
     (∀ rows : List HourlyRecord, Outcome.emptyData ≠ Outcome.ok rows)) :=
  ⟨rfl, c4_empty_keys_amended c4W 0 0 rfl⟩

/-- C2: the accumulated rain and snow columns are prefix sums of the hourly
rain and snowfall columns over the entire truncated pre-filter table,
computed before the date filter (line 106 comes after lines 102-103); the
returned table is the filter of the accumulated pre-filter table, so
discarded records keep their contribution and a retained record carries the
running total accumulated from any padded hours before the requested
window. -/
theorem c2_accum_before_filter (h : RawHourly) (s e : ℤ)
    (pre rows : List HourlyRecord)
    (hpre : preFilterTable h = Outcome.ok pre)
    (hok : processHourly h s e = Outcome.ok rows) :
    rows = dateFilter s e pre ∧
    pre.map (fun r => r.accumulated_rain) = specRunningSums (pre.map (fun r => r.rain)) ∧
    pre.map (fun r => r.accumulated_snow) = specRunningSums (pre.map (fun r => r.snowfall)) := by
  have h2 := processHourly_ok h s e pre hpre
  rw [h2] at hok
  obtain ⟨base, rfl⟩ := preFilterTable_ok_shape h pre hpre
  refine ⟨(Outcome.ok.inj hok).symm, ?_, ?_⟩
  · rw [addAccum_rain_eq, map_addAccum (fun r => r.rain) (fun _ _ _ => rfl)]
    exact cumsumFrom_zero_eq_spec _
  · rw [addAccum_snow_eq, map_addAccum (fun r => r.snowfall) (fun _ _ _ => rfl)]
    exact cumsumFrom_zero_eq_spec _

/-- C2 witness: the theorem applied to a concrete response with one padded
hour before the requested single-day window; the retained record keeps the
accumulated totals 6 and 5 built up from the discarded hour. -/
theorem c2_accum_witness :
    preFilterTable c2W =
      Outcome.ok [mkRec (-3600) 0 0 0 5 2 0 5 2, mkRec 0 0 0 0 1 3 0 6 5] ∧
    processHourly c2W 0 0 = Outcome.ok [mkRec 0 0 0 0 1 3 0 6 5] ∧
    ([mkRec 0 0 0 0 1 3 0 6 5] =
      dateFilter 0 0 [mkRec (-3600) 0 0 0 5 2 0 5 2, mkRec 0 0 0 0 1 3 0 6 5] ∧
     [mkRec (-3600) 0 0 0 5 2 0 5 2, mkRec 0 0 0 0 1 3 0 6 5].map
        (fun r => r.accumulated_rain) =
      specRunningSums ([mkRec (-3600) 0 0 0 5 2 0 5 2, mkRec 0 0 0 0 1 3 0 6 5].map
        (fun r => r.rain)) ∧
     [mkRec (-3600) 0 0 0 5 2 0 5 2, mkRec 0 0 0 0 1 3 0 6 5].map
        (fun r => r.accumulated_snow) =
      specRunningSums ([mkRec (-3600) 0 0 0 5 2 0 5 2, mkRec 0 0 0 0 1 3 0 6 5].map
        (fun r => r.snowfall))) := by
  have h1 : minLen c2W = 2 := by decide
  have hpre : preFilterTable c2W =
      Outcome.ok [mkRec (-3600) 0 0 0 5 2 0 5 2, mkRec 0 0 0 0 1 3 0 6 5] := by
    simp +decide [preFilterTable, c2W, lookupKey, h1, df_temp_assemble, buildRow,
      withCloudsTotal, setCloudsTotal, addAccum, mkRec, List.range_succ]
    norm_num
  have hok : processHourly c2W 0 0 = Outcome.ok [mkRec 0 0 0 0 1 3 0 6 5] := by
    rw [processHourly, hpre]
    simp [dateFilter, dayStart, dayEnd, mkRec]
  exact ⟨hpre, hok, c2_accum_before_filter c2W 0 0 _ _ hpre hok⟩

/-- C3: in every table the Normalizer returns, each record's total cloud
cover equals the sum of its low, mid and high cloud-cover fields, with no
clamping anywhere in the pipeline. -/
theorem c3_clouds_total_sum (h : RawHourly) (s e : ℤ) (rows : List HourlyRecord)
    (hok : processHourly h s e = Outcome.ok rows) :
    ∀ r ∈ rows, r.clouds_total = r.clouds_low + r.clouds_mid + r.clouds_high := by
  obtain ⟨pre, hpre, rfl⟩ := processHourly_ok_inv h s e rows hok
  obtain ⟨base, rfl⟩ := preFilterTable_ok_shape h pre hpre
  intro r hr
  exact cloudsTotal_of_shape base r (List.mem_of_mem_filter hr)

/-- C3 witness: the theorem applied to a concrete one-row response with
cloud layers 10/20/30, whose total is 60. -/
theorem c3_clouds_witness :
    processHourly c3W 0 0 = Outcome.ok [mkRec 0 10 20 30 0 0 60 0 0] ∧
    ∀ r ∈ [mkRec 0 10 20 30 0 0 60 0 0],
      r.clouds_total = r.clouds_low + r.clouds_mid + r.clouds_high := by
  have h1 : minLen c3W = 1 := by decide
  have hpre : preFilterTable c3W = Outcome.ok [mkRec 0 10 20 30 0 0 60 0 0] := by
    simp +decide [preFilterTable, c3W, lookupKey, h1, df_temp_assemble, buildRow,
      withCloudsTotal, setCloudsTotal, addAccum, mkRec, List.range_succ]
    norm_num
  have hok : processHourly c3W 0 0 = Outcome.ok [mkRec 0 10 20 30 0 0 60 0 0] := by
    rw [processHourly, hpre]
    simp [dateFilter, dayStart, dayEnd, mkRec]
  exact ⟨hok, c3_clouds_total_sum c3W 0 0 _ hok⟩

/-- C5: the date filter of line 106 retains exactly the records whose
timestamp lies in the closed interval from `start_date` at 00:00:00
(`dayStart`) to `end_date` at 23:59:59 (`dayEnd`), both bounds on the same
local-time axis as the request; everything outside is discarded. -/
theorem c5_range_filter_closed_interval (s e : ℤ) (rows : List HourlyRecord)
    (r : HourlyRecord) :
    r ∈ dateFilter s e rows ↔
      r ∈ rows ∧ dayStart s ≤ r.time ∧ r.time ≤ dayEnd e := by
  simp [dateFilter, List.mem_filter]

/-- C7: the date filter is idempotent: filtering an already filtered table
with the same bounds returns it unchanged. -/
theorem c7_filter_idempotent (s e : ℤ) (rows : List HourlyRecord) :
    dateFilter s e (dateFilter s e rows) = dateFilter s e rows := by
  simp only [dateFilter, List.filter_filter, Bool.and_self]

/-- A pointwise property of a column untouched by `addAccum` transfers back
from the accumulated rows to the base rows. -/
theorem forall_field_of_addAccum (f : HourlyRecord → ℚ)
    (hfa : ∀ (r : HourlyRecord) (x y : ℚ),
      f { r with accumulated_rain := x, accumulated_snow := y } = f r)
    (l : List HourlyRecord) (a b : ℚ) (P : ℚ → Prop)
    (hr : ∀ r ∈ addAccum l a b, P (f r)) : ∀ r ∈ l, P (f r) := by
  intro r hrl
  have hx : f r ∈ (addAccum l a b).map f := by
    rw [map_addAccum f hfa]
    exact List.mem_map_of_mem f hrl
  obtain ⟨q, hq, hqe⟩ := List.mem_map.mp hx
  rw [← hqe]
  exact hr q hq

/-- C6 (amended): whenever the truncated pre-filter table carries
nonnegative hourly rain and snowfall values, the accumulated rain column of
the returned table is non-decreasing along the table's order (the timestamp
order, since the source emits hours in order), and likewise the accumulated
snow column.  The unamended claim, quantified over every produced table,
fails when an hourly value is negative — nothing in the code rules that
out: see the counterexample. -/
theorem c6_accum_monotone_amended (h : RawHourly) (s e : ℤ)
    (pre rows : List HourlyRecord)
    (hpre : preFilterTable h = Outcome.ok pre)
    (hrain : ∀ r ∈ pre, 0 ≤ r.rain)
    (hsnow : ∀ r ∈ pre, 0 ≤ r.snowfall)
    (hok : processHourly h s e = Outcome.ok rows) :
    (rows.map (fun r => r.accumulated_rain)).Pairwise (· ≤ ·) ∧
    (rows.map (fun r => r.accumulated_snow)).Pairwise (· ≤ ·) := by
  have h2 := processHourly_ok h s e pre hpre
  rw [h2] at hok
  obtain rfl : rows = dateFilter s e pre := (Outcome.ok.inj hok).symm
  obtain ⟨base, rfl⟩ := preFilterTable_ok_shape h pre hpre
  have hrain2 := forall_field_of_addAccum (fun r => r.rain) (fun _ _ _ => rfl)
    (withCloudsTotal base) 0 0 (fun x => 0 ≤ x) hrain
  have hsnow2 := forall_field_of_addAccum (fun r => r.snowfall) (fun _ _ _ => rfl)
    (withCloudsTotal base) 0 0 (fun x => 0 ≤ x) hsnow
  obtain ⟨hpr, -⟩ := addAccum_rain_pairwise (withCloudsTotal base) 0 0 hrain2
  obtain ⟨hps, -⟩ := addAccum_snow_pairwise (withCloudsTotal base) 0 0 hsnow2
  unfold dateFilter
  exact ⟨hpr.sublist ((List.filter_sublist _).map _),
    hps.sublist ((List.filter_sublist _).map _)⟩

/-- C6 counterexample: a response whose hourly rain column is `[1, -1]` —
numbers the interface does not forbid and the code does not validate —
produces a table whose accumulated rain column `[1, 0]` strictly decreases
between the two consecutive records, whose timestamps increase. -/
theorem c6_cex_negative_rain :
    processHourly c6E 0 0 =
      Outcome.ok [mkRec 0 0 0 0 1 0 0 1 0, mkRec 3600 0 0 0 (-1) 0 0 0 0] ∧
    ¬ (([mkRec 0 0 0 0 1 0 0 1 0, mkRec 3600 0 0 0 (-1) 0 0 0 0].map
        (fun r => r.accumulated_rain)).Pairwise (· ≤ ·)) := by
  have h1 : minLen c6E = 2 := by decide
  have hpre : preFilterTable c6E =
      Outcome.ok [mkRec 0 0 0 0 1 0 0 1 0, mkRec 3600 0 0 0 (-1) 0 0 0 0] := by
    simp +decide [preFilterTable, c6E, lookupKey, h1, df_temp_assemble, buildRow,
      withCloudsTotal, setCloudsTotal, addAccum, mkRec, List.range_succ]
  constructor
  · rw [processHourly, hpre]
    simp [dateFilter, dayStart, dayEnd, mkRec]
    norm_num
  · norm_num [mkRec, List.pairwise_cons]

/-- C6 witness: the amended theorem applied to a concrete response with
nonnegative rain `[1, 2]` and snowfall `[0, 1]`; both accumulated columns
come out non-decreasing. -/
theorem c6_accum_monotone_witness :
    preFilterTable c6W =
      Outcome.ok [mkRec 0 0 0 0 1 0 0 1 0, mkRec 3600 0 0 0 2 1 0 3 1] ∧
    (∀ r ∈ [mkRec 0 0 0 0 1 0 0 1 0, mkRec 3600 0 0 0 2 1 0 3 1], 0 ≤ r.rain) ∧
    (∀ r ∈ [mkRec 0 0 0 0 1 0 0 1 0, mkRec 3600 0 0 0 2 1 0 3 1], 0 ≤ r.snowfall) ∧
    processHourly c6W 0 0 =
      Outcome.ok [mkRec 0 0 0 0 1 0 0 1 0, mkRec 3600 0 0 0 2 1 0 3 1] ∧
    (([mkRec 0 0 0 0 1 0 0 1 0, mkRec 3600 0 0 0 2 1 0 3 1].map
        (fun r => r.accumulated_rain)).Pairwise (· ≤ ·) ∧
     ([mkRec 0 0 0 0 1 0 0 1 0, mkRec 3600 0 0 0 2 1 0 3 1].map
        (fun r => r.accumulated_snow)).Pairwise (· ≤ ·)) := by
  have h1 : minLen c6W = 2 := by decide
  have hpre : preFilterTable c6W =
      Outcome.ok [mkRec 0 0 0 0 1 0 0 1 0, mkRec 3600 0 0 0 2 1 0 3 1] := by
    simp +decide [preFilterTable, c6W, lookupKey, h1, df_temp_assemble, buildRow,
      withCloudsTotal, setCloudsTotal, addAccum, mkRec, List.range_succ]
    norm_num
  have hok : processHourly c6W 0 0 =
      Outcome.ok [mkRec 0 0 0 0 1 0 0 1 0, mkRec 3600 0 0 0 2 1 0 3 1] := by
    rw [processHourly, hpre]
    simp [dateFilter, dayStart, dayEnd, mkRec]
    norm_num
  have hrain : ∀ r ∈ [mkRec 0 0 0 0 1 0 0 1 0, mkRec 3600 0 0 0 2 1 0 3 1],
      0 ≤ r.rain := by norm_num [mkRec]
  have hsnow : ∀ r ∈ [mkRec 0 0 0 0 1 0 0 1 0, mkRec 3600 0 0 0 2 1 0 3 1],
      0 ≤ r.snowfall := by norm_num [mkRec]
  exact ⟨hpre, hrain, hsnow, hok,
    c6_accum_monotone_amended c6W 0 0 _ _ hpre hrain hsnow hok⟩

/-- C8: the Location Resolver returns the one not-found tuple
`(None, None, None, None, 0)` both on any exception in the request/parse
(lines 38-40) and when the response has no `results` key (lines 35-37) or
an empty `results` list (the `[0]` access raises, caught by the same bare
`except`), with no observable difference between the causes; on a match it
builds the result from the first entry, with `country` defaulting to the
empty string and `elevation` defaulting to 0 when absent (line 34). -/
theorem c8_resolver_collapse :
    (∀ msg : String, get_coordinates_from_city (Except.error msg) = notFoundCity) ∧
    (∀ d : GeoData, d.results = none →
      get_coordinates_from_city (Except.ok d) = notFoundCity) ∧
    (∀ d : GeoData, d.results = some [] →
      get_coordinates_from_city (Except.ok d) = notFoundCity) ∧
    (∀ (r : GeoResult) (rest : List GeoResult) (d : GeoData),
      d.results = some (r :: rest) →
      get_coordinates_from_city (Except.ok d) =
        ⟨some r.latitude, some r.longitude, some r.name,
          some (r.country.getD ""), r.elevation.getD 0⟩) := by
  refine ⟨fun _ => rfl, ?_, ?_, ?_⟩
  · intro d hd; cases d; subst hd; rfl
  · intro d hd; cases d; subst hd; rfl
  · intro r rest d hd; cases d; subst hd; rfl

/-- C8 witness: the theorem applied to the four concrete situations: a
transport error, a body without results, an empty result list, and a match
whose optional fields are absent. -/
theorem c8_resolver_witness :
    get_coordinates_from_city (Except.error "timeout") = notFoundCity ∧
    get_coordinates_from_city (Except.ok ⟨none⟩) = notFoundCity ∧
    get_coordinates_from_city (Except.ok ⟨some []⟩) = notFoundCity ∧
    get_coordinates_from_city (Except.ok ⟨some [⟨45, 9, "Milano", none, none⟩]⟩) =
      ⟨some 45, some 9, some "Milano", some "", 0⟩ :=
  ⟨c8_resolver_collapse.1 "timeout",
   c8_resolver_collapse.2.1 ⟨none⟩ rfl,
   c8_resolver_collapse.2.2.1 ⟨some []⟩ rfl,
   c8_resolver_collapse.2.2.2 ⟨45, 9, "Milano", none, none⟩ [] _ rfl⟩

/-- C9: when the body parses but the `hourly` object is missing, or the
`hourly` object has at least one data-bearing array yet lacks one of the
thirteen named parameter arrays, the function ends in an uncaught
`KeyError` — not a fetch failure, not the empty-data error, and not a
table. -/
theorem c9_missing_key_error (h : RawHourly) (s e : ℤ)
    (hne : dataLengths h ≠ [])
    (hmiss : ∃ k ∈ paramKeys, lookupKey h k = none) :
    isKeyError (processHourly h s e) = true ∧
    fetch_and_process_data (Except.ok ⟨none⟩) s e = Outcome.keyError "hourly" := by
  refine ⟨?_, rfl⟩
  apply isKeyError_processHourly
  obtain ⟨k, hkmem, hknone⟩ := hmiss
  unfold preFilterTable
  rw [if_neg hne]
  rcases h1 : lookupKey h "time" with _ | ts
  · simp [h1, isKeyError]
  rcases h2 : lookupKey h "temperature_2m" with _ | temp
  · simp [h1, h2, isKeyError]
  rcases h3 : lookupKey h "dew_point_2m" with _ | dew
  · simp [h1, h2, h3, isKeyError]
  rcases h4 : lookupKey h "relative_humidity_2m" with _ | hum
  · simp [h1, h2, h3, h4, isKeyError]
  rcases h5 : lookupKey h "cloud_cover_low" with _ | cl
  · simp [h1, h2, h3, h4, h5, isKeyError]
  rcases h6 : lookupKey h "cloud_cover_mid" with _ | cm
  · simp [h1, h2, h3, h4, h5, h6, isKeyError]
  rcases h7 : lookupKey h "cloud_cover_high" with _ | ch
  · simp [h1, h2, h3, h4, h5, h6, h7, isKeyError]
  rcases h8 : lookupKey h "surface_pressure" with _ | pr
  · simp [h1, h2, h3, h4, h5, h6, h7, h8, isKeyError]
  rcases h9 : lookupKey h "wind_speed_10m" with _ | ws
  · simp [h1, h2, h3, h4, h5, h6, h7, h8, h9, isKeyError]
  rcases h10 : lookupKey h "wind_gusts_10m" with _ | wg
  · simp [h1, h2, h3, h4, h5, h6, h7, h8, h9, h10, isKeyError]
  rcases h11 : lookupKey h "wind_direction_10m" with _ | wd
  · simp [h1, h2, h3, h4, h5, h6, h7, h8, h9, h10, h11, isKeyError]
  rcases h12 : lookupKey h "rain" with _ | ra
  · simp [h1, h2, h3, h4, h5, h6, h7, h8, h9, h10, h11, h12, isKeyError]
  rcases h13 : lookupKey h "snowfall" with _ | sn
  · simp [h1, h2, h3, h4, h5, h6, h7, h8, h9, h10, h11, h12, h13, isKeyError]
  rcases h14 : lookupKey h "freezing_level_height" with _ | fl
  · simp [h1, h2, h3, h4, h5, h6, h7, h8, h9, h10, h11, h12, h13, h14, isKeyError]
  exfalso
  simp only [paramKeys, List.mem_cons, List.not_mem_nil, or_false] at hkmem
  rcases hkmem with rfl | rfl | rfl | rfl | rfl | rfl | rfl | rfl | rfl | rfl | rfl | rfl | rfl <;>
    simp_all

/-- C9 witness: the theorem applied to a response carrying `time` and
`temperature_2m` (so the length check passes) but missing the other twelve
named arrays; its processing ends in `KeyError` on `dew_point_2m`. -/
theorem c9_missing_key_witness :
    dataLengths c9W ≠ [] ∧
    (∃ k ∈ paramKeys, lookupKey c9W k = none) ∧
    (isKeyError (processHourly c9W 0 0) = true ∧
     fetch_and_process_data (Except.ok ⟨none⟩) 0 0 = Outcome.keyError "hourly") ∧
    processHourly c9W 0 0 = Outcome.keyError "dew_point_2m" :=
  ⟨by decide, by decide, c9_missing_key_error c9W 0 0 (by decide) (by decide), by decide⟩
